import Mathlib

/-!
Verification of the SimpleTuner RunPod serverless handler
(`simpletuner_docker/handler.py`).

The handler's externally visible behaviour is embedded shallowly: pure
computations (path/extension handling, CLI argument building, JSON result
shapes) are translated directly; every interaction with the outside world
(HTTP download, provider download, subprocess spawn/exit, file writes,
signed-URL uploads) is driven by an explicit `World` record that says what
each external operation would return or whether it would raise.  Python
exceptions are modelled with `Except PyExc`; an exception carries the
message `str(e)` and the `traceback.format_exc()` text as opaque strings
supplied by the world.
-/

/-- A Python exception as observed by the handler: `str(e)` and the
formatted traceback. -/
structure PyExc where
  msg : String
  tb : String
deriving DecidableEq, Repr

/- Fixed worker-local directory roots (module constants in handler.py). -/

def WORKSPACE_DIR : String := "/workspace"

def INPUT_DIR : String := WORKSPACE_DIR ++ "/inputs"

def OUTPUT_DIR : String := WORKSPACE_DIR ++ "/outputs"

def DATASET_DIR : String := WORKSPACE_DIR ++ "/dataset"

def CONFIG_DIR : String := WORKSPACE_DIR ++ "/config"

def LOG_DIR : String := WORKSPACE_DIR ++ "/logs"

/- String helpers mirroring the Python library calls used by the handler.
All are written by structural recursion over `List Char` so that closed
instances evaluate inside proofs. -/

/-- `s.split('?')[0]`: everything before the first question mark. -/
def splitQuery (s : String) : String :=
  String.mk (s.data.takeWhile (fun ch => ch ≠ '?'))

/-- `os.path.basename`: the part after the last slash. -/
def pyBasename (s : String) : String :=
  String.mk ((s.data.reverse.takeWhile (fun ch => ch ≠ '/')).reverse)

/-- `os.path.splitext(s)[1]` applied to a basename: the suffix starting at
the last dot, empty when there is no dot or when every character before the
last dot is itself a dot (Python treats such names as dotfiles with no
extension). -/
def extOf (base : String) : String :=
  let cs := base.data
  let tail := (cs.reverse.takeWhile (fun ch => ch ≠ '.')).reverse
  if tail.length = cs.length then ""
  else if (cs.take (cs.length - tail.length - 1)).any (fun ch => ch ≠ '.') then
    String.mk (cs.drop (cs.length - tail.length - 1))
  else ""

/-- `str.lower()` (ASCII, which is all the handler's extensions need). -/
def pyLower (s : String) : String :=
  String.mk (s.data.map Char.toLower)

/-- `str.rstrip()`: drop trailing whitespace. -/
def pyRstrip (s : String) : String :=
  String.mk ((s.data.reverse.dropWhile Char.isWhitespace).reverse)

/-- `dataset_url.startswith(('http://', 'https://'))`. -/
def isHttp (u : String) : Bool :=
  ("http://".data.isPrefixOf u.data) || ("https://".data.isPrefixOf u.data)

/-- Python `"\n".join`. -/
def joinNl : List String → String
  | [] => ""
  | [x] => x
  | x :: y :: rest => x ++ "\n" ++ joinNl (y :: rest)

/-- Python `xs[-n:]`. -/
def pyTakeLast (n : Nat) (xs : List String) : List String :=
  xs.drop (xs.length - n)

/-- Association-list lookup with Python `dict` semantics (keys unique, the
stored value for the key is returned). -/
def alookup {β : Type} (k : String) : List (String × β) → Option β
  | [] => none
  | (a, b) :: rest => if a = k then some b else alookup k rest

/-- Python `d[k] = v` on an insertion-ordered dict: replaces in place when
the key exists, appends otherwise. -/
def dictInsert (m : List (String × String)) (k v : String) : List (String × String) :=
  if (alookup k m).isSome then
    m.map (fun p => if p.1 = k then (k, v) else p)
  else m ++ [(k, v)]

/- Configuration values.  The handler's config objects come from the JSON
job payload; `prepare_training_args` dispatches on the Python runtime type
of each value with an `isinstance` chain.  Numeric scalars are modelled by
`Int` (the `int`/`float` branch of the chain is one branch with one
behaviour: truthiness test, then `str(value)`). -/

/-- A scalar list element; `str(item)` is applied to each. -/
inductive Prim where
  | b (v : Bool)
  | s (v : String)
  | i (v : Int)
deriving DecidableEq, Repr

/-- A JSON-ish config value as seen by `prepare_training_args`.  `vNull`
and `vObj` match none of the `isinstance` branches and are skipped. -/
inductive Value where
  | vBool (b : Bool)
  | vStr (s : String)
  | vInt (n : Int)
  | vList (xs : List Prim)
  | vNull
  | vObj
deriving DecidableEq, Repr

/-- Python `str` on a list element. -/
def primStr : Prim → String
  | .b true => "True"
  | .b false => "False"
  | .s v => v
  | .i n => toString n

/- ------------------------------------------------------------------
`download_dataset(dataset_url, extract=True)`
------------------------------------------------------------------ -/

/-- One entry of `os.listdir(INPUT_DIR)`. -/
structure DirEntry where
  name : String
  isFile : Bool
deriving DecidableEq, Repr

/-- External outcomes observed by `download_dataset`: whether each external
call raises, and the input-directory listing seen after a provider
download. -/
structure DlWorld where
  httpExc : Bool
  providerExc : Bool
  inputListing : List DirEntry
  extractExc : Bool
  moveExc : Bool
deriving Repr

/-- Filesystem/process effects performed by `download_dataset`, in order. -/
inductive DlEffect where
  | clearDataset
  | httpGet (url dest : String)
  | providerFetch (url : String)
  | runUnzip (src dst : String)
  | runTar (src dst : String)
  | move (src dst : String)
deriving DecidableEq, Repr

/-- `file_extension = os.path.splitext(dataset_url.split('?')[0])[1].lower()`. -/
def urlExt (u : String) : String :=
  pyLower (extOf (pyBasename (splitQuery u)))

/-- `download_path = os.path.join(INPUT_DIR, f"dataset{file_extension}")`. -/
def dsDownloadPath (u : String) : String :=
  INPUT_DIR ++ "/dataset" ++ urlExt u

/-- The first listed regular file that is not one of the side-channel
artifacts `config.json` / `dataloader.json`. -/
def firstDataFile (l : List DirEntry) : Option String :=
  match l with
  | [] => none
  | e :: rest =>
    if e.isFile && e.name ≠ "config.json" && e.name ≠ "dataloader.json" then some e.name
    else firstDataFile rest

/-- The path the downloaded payload ends up at: the reference-derived path
for HTTP(S) references; for provider references, the first eligible file
found in the input directory (falling back to the reference-derived path
when the scan finds nothing). -/
def resolvedDownloadPath (u : String) (w : DlWorld) : String :=
  if isHttp u then dsDownloadPath u
  else
    match firstDataFile w.inputListing with
    | some name => INPUT_DIR ++ "/" ++ name
    | none => dsDownloadPath u

/-- The archive-extension list tested by `download_dataset`. -/
def archiveExts : List String := [".zip", ".tar", ".gz", ".tar.gz", ".tgz"]

/-- `download_dataset`: returns the path handed back to the handler
(`none` models the `except` branch returning `None`) together with the
trace of external effects performed. -/
def download_dataset (dataset_url : String) (extract : Bool) (w : DlWorld) :
    Option String × List DlEffect :=
  let file_extension := urlExt dataset_url
  let eff0 := [DlEffect.clearDataset]
  let phase1 : Option (String × List DlEffect) :=
    if isHttp dataset_url then
      if w.httpExc then none
      else some (dsDownloadPath dataset_url,
        eff0 ++ [DlEffect.httpGet dataset_url (dsDownloadPath dataset_url)])
    else
      if w.providerExc then none
      else some (resolvedDownloadPath dataset_url w,
        eff0 ++ [DlEffect.providerFetch dataset_url])
  match phase1 with
  | none => (none, eff0)
  | some (download_path, effs) =>
    if extract && archiveExts.contains file_extension then
      let tool :=
        if file_extension = ".zip" then DlEffect.runUnzip download_path DATASET_DIR
        else DlEffect.runTar download_path DATASET_DIR
      if w.extractExc then (none, effs ++ [tool])
      else (some DATASET_DIR, effs ++ [tool])
    else if !extract then
      let dest := DATASET_DIR ++ "/" ++ pyBasename download_path
      if w.moveExc then (none, effs)
      else (some dest, effs ++ [DlEffect.move download_path dest])
    else
      (some download_path, effs)

/- ------------------------------------------------------------------
`save_config_file(config_data, filename)`
------------------------------------------------------------------ -/

/-- `save_config_file`: returns the config path on success, `None` when the
write raises (the exception is caught inside the function). -/
def save_config_file (_config_data : List (String × Value)) (filename : String)
    (writeOk : Bool) : Option String :=
  let config_path := CONFIG_DIR ++ "/" ++ filename
  if writeOk then some config_path else none

/- ------------------------------------------------------------------
`prepare_training_args(config, dataloader_config, dataset_path)`
------------------------------------------------------------------ -/

/-- The tokens contributed by one config entry: the `isinstance` chain of
`prepare_training_args` (`bool` first, then truthy scalar, then non-empty
list; anything else contributes nothing). -/
def encodeEntry (key : String) (value : Value) : List String :=
  match value with
  | .vBool b => if b then ["--" ++ key] else []
  | .vStr s => if s ≠ "" then ["--" ++ key, s] else []
  | .vInt n => if n ≠ 0 then ["--" ++ key, toString n] else []
  | .vList xs =>
    if xs ≠ [] then xs.foldr (fun item acc => ["--" ++ key, primStr item] ++ acc) []
    else []
  | .vNull => []
  | .vObj => []

/-- The `for key, value in config.items()` loop: `args` grows by
`encodeEntry` per entry, in insertion order. -/
def configLoop (config : List (String × Value)) (args : List String) : List String :=
  match config with
  | [] => args
  | (key, value) :: rest => configLoop rest (args ++ encodeEntry key value)

/-- `prepare_training_args`: the fixed `--train_data_dir` / `--output_dir`
pairs, the encoded config entries, then the `--dataloader_config` pair
when the dataloader mapping is truthy (non-empty). -/
def prepare_training_args (config : List (String × Value))
    (dataloader_config : List (String × Value)) (dataset_path : String) : List String :=
  let args : List String := []
  let args := args ++ ["--train_data_dir", dataset_path]
  let args := args ++ ["--output_dir", OUTPUT_DIR]
  let args := configLoop config args
  if dataloader_config ≠ [] then
    args ++ ["--dataloader_config", CONFIG_DIR ++ "/dataloader.json"]
  else args

/- ------------------------------------------------------------------
`run_training(args)`
------------------------------------------------------------------ -/

/-- External outcomes observed by `run_training`: whether `open`, `Popen`
and `process.wait()` raise, the lines the child's merged stream delivers,
an optional point at which iterating the stream raises, an optional
delivered-line index at which `log_file.write` raises (the `try` wraps the
whole loop body, so a write failure is caught exactly like a stream-read
failure — but it strikes *after* `logs.append(line)` has already run for
that line), and the child's exit code.  A `flush`/logger failure after a
successful write truncates the loop with the two views still in lockstep,
which is the same observable as `monitorFailsAfter` at the next index. -/
structure RunWorld where
  now : Nat
  openExc : Option PyExc
  spawnExc : Option PyExc
  streamLines : List String
  monitorFailsAfter : Option Nat
  writeFailsAt : Option Nat
  waitExc : Option PyExc
  exitCode : Int
deriving Repr

/-- `log_file_path = os.path.join(LOG_DIR, f"training_{int(time.time())}.log")`. -/
def runLogPath (w : RunWorld) : String :=
  LOG_DIR ++ "/training_" ++ toString w.now ++ ".log"

/-- The stream lines actually delivered before iteration ends (normally or
by raising). -/
def deliveredLines (w : RunWorld) : List String :=
  match w.monitorFailsAfter with
  | some n => w.streamLines.take n
  | none => w.streamLines

/-- The monitoring loop body, once per delivered line: `line.rstrip()` is
appended to the in-memory list, then `line + "\n"` is written (and
flushed) to the log file.  The first argument counts down to the line
whose write raises: at that line the append has already happened, the
write records nothing, and the loop aborts (the exception is caught by
the `except`).  Returns (in-memory list, file writes), each in order. -/
def monitorLoop : Option Nat → List String → List String × List String
  | _, [] => ([], [])
  | some 0, line :: _ => ([pyRstrip line], [])
  | some (n + 1), line :: rest =>
    let line := pyRstrip line
    let (logs, writes) := monitorLoop (some n) rest
    (line :: logs, (line ++ "\n") :: writes)
  | none, line :: rest =>
    let line := pyRstrip line
    let (logs, writes) := monitorLoop none rest
    (line :: logs, (line ++ "\n") :: writes)

/-- The in-memory `logs` list a run captures. -/
def capturedLogs (w : RunWorld) : List String :=
  (monitorLoop w.writeFailsAt (deliveredLines w)).1

/-- The write calls the run makes on the log file (each write appends
exactly one newline-terminated line). -/
def writtenRecords (w : RunWorld) : List String :=
  (monitorLoop w.writeFailsAt (deliveredLines w)).2

/-- What `run_training` leaves behind: the returned triple or the escaping
exception, whether the log file was opened and whether it was closed, and
the list of write calls made on it (each write appends exactly one
newline-terminated line). -/
structure RunResult where
  outcome : Except PyExc (Bool × List String × String)
  fileOpened : Bool
  fileClosed : Bool
  fileWrites : List String
deriving Repr

/-- `run_training`, path by path: `open` raises → nothing opened; `Popen`
raises (it sits between `open` and the `try`) → the handle escapes
unclosed; a monitoring exception — a stream-read failure or a caught
`log_file.write` failure — is caught by the `except` and control reaches
the `finally`; `process.wait()` raising inside the `finally` skips the
subsequent `log_file.close()`; otherwise the file is closed and
`(returncode == 0, logs, log_file_path)` is returned. -/
def run_training (_args : List String) (w : RunWorld) : RunResult :=
  let log_file_path := runLogPath w
  match w.openExc with
  | some e => ⟨.error e, false, false, []⟩
  | none =>
    match w.spawnExc with
    | some e => ⟨.error e, true, false, []⟩
    | none =>
      let (logs, writes) := monitorLoop w.writeFailsAt (deliveredLines w)
      match w.waitExc with
      | some e => ⟨.error e, true, false, writes⟩
      | none =>
        ⟨.ok (w.exitCode == 0, logs, log_file_path), true, true, writes⟩

/- ------------------------------------------------------------------
`collect_output_files()` and `upload_results(output_files, signed_urls)`
------------------------------------------------------------------ -/

/-- `collect_output_files`: the `os.walk` over the output root is supplied
by the world as the list of relative paths of the regular files it finds;
each becomes one entry `rel_path ↦ absolute path`. -/
def collect_output_files (outputTree : List String) : List (String × String) :=
  outputTree.map (fun rel => (rel, OUTPUT_DIR ++ "/" ++ rel))

/-- External outcomes observed by `upload_results`: whether each per-file
signed-URL upload succeeds, and whether the bundling `zip` subprocess
raises (`check=True`). -/
structure UploadWorld where
  uploadOk : String → Bool
  zipExc : Option PyExc

/-- The `for file_key, file_path in output_files.items()` loop: a key is
attempted iff it is present in the signed-URL map; a failed upload is
caught (the key stays attempted, no result entry); a successful upload
records the signed URL with its query part stripped.  Returns
(result entries, attempted keys), each in order. -/
def uploadLoop (signed_urls : List (String × String)) (ok : String → Bool) :
    List (String × String) → List (String × String) × List String
  | [] => ([], [])
  | (file_key, _file_path) :: rest =>
    let (res, att) := uploadLoop signed_urls ok rest
    match alookup file_key signed_urls with
    | some url =>
      if ok file_key then ((file_key, splitQuery url) :: res, file_key :: att)
      else (res, file_key :: att)
    | none => (res, att)

/-- `upload_results`: selective per-file publishing when a non-empty
signed-URL mapping is supplied, otherwise one `results.zip` bundle at the
workspace root (whose `zip` subprocess may raise out of the function).
Returns the result mapping (or the escaping exception) and the attempted
upload keys. -/
def upload_results (output_files : List (String × String))
    (signed_urls : List (String × String)) (w : UploadWorld) :
    Except PyExc (List (String × String)) × List String :=
  if signed_urls ≠ [] then
    (.ok (uploadLoop signed_urls w.uploadOk output_files).1,
     (uploadLoop signed_urls w.uploadOk output_files).2)
  else
    match w.zipExc with
    | some e => (.error e, [])
    | none => (.ok [("results.zip", WORKSPACE_DIR ++ "/results.zip")], [])

/- ------------------------------------------------------------------
`handler(event)`
------------------------------------------------------------------ -/

/-- The JSON-ish result objects the handler returns. -/
inductive Json where
  | s (v : String)
  | obj (fields : List (String × Json))

/-- Top-level keys of a result object. -/
def jsonKeys : Json → List String
  | .s _ => []
  | .obj fields => fields.map (fun p => p.1)

/-- Field access on a result object. -/
def jsonGet (j : Json) (k : String) : Option Json :=
  match j with
  | .s _ => none
  | .obj fields => alookup k fields

/-- `{"error": "No dataset_url provided in the input"}`. -/
def noUrlJson : Json :=
  .obj [("error", .s ("No dataset_url provided in the input"))]

/-- `{"error": "Failed to download or extract dataset"}`. -/
def dlFailJson : Json :=
  .obj [("error", .s ("Failed to download or extract dataset"))]

/-- The top-level `except` payload: `{"error": str(e), "traceback": ...}`. -/
def excJson (e : PyExc) : Json :=
  .obj [("error", .s e.msg), ("traceback", .s e.tb)]

/-- The normal-completion response object. -/
def responseJson (success : Bool) (result_urls : List (String × String))
    (logs : List String) : Json :=
  .obj [("status", .s (if success then "success" else "error")),
        ("output", .obj
          [("files", .obj (result_urls.map (fun kv => (kv.1, Json.s kv.2)))),
           ("log_summary", .s (if logs ≠ [] then joinNl (pyTakeLast 20 logs)
                               else "No logs available"))])]

/-- The `event["input"]` payload, with `.get(..., {})` defaults applied. -/
structure EventInput where
  dataset_url : Option String
  config : List (String × Value)
  dataloader : List (String × Value)
  signed_urls : List (String × String)

/-- Everything the outside world decides during one handler run. -/
structure World where
  dl : DlWorld
  saveConfigOk : Bool
  saveDataloaderOk : Bool
  run : RunWorld
  outputTree : List String
  up : UploadWorld

/-- Observable intermediates of one handler run: the argument vector given
to `run_training` and the collected-files mapping given to
`upload_results` (each `none` when its stage was never reached). -/
structure HTrace where
  trainingArgs : Option (List String)
  filesToPublish : Option (List (String × String))

/-- The body of the handler's `try` block: the value it returns, or the
exception escaping a stage, plus the run's observable intermediates. -/
def handlerTry (ev : EventInput) (w : World) : Except PyExc Json × HTrace :=
  match ev.dataset_url with
  | none => (.ok noUrlJson, ⟨none, none⟩)
  | some dataset_url =>
    if dataset_url = "" then (.ok noUrlJson, ⟨none, none⟩)
    else
      match (download_dataset dataset_url true w.dl).1 with
      | none => (.ok dlFailJson, ⟨none, none⟩)
      | some dataset_path =>
        let _config_path := save_config_file ev.config ("config.json") w.saveConfigOk
        let _dataloader_path :=
          if ev.dataloader ≠ [] then
            save_config_file ev.dataloader ("dataloader.json") w.saveDataloaderOk
          else none
        let training_args := prepare_training_args ev.config ev.dataloader dataset_path
        let rr := run_training training_args w.run
        match rr.outcome with
        | .error e => (.error e, ⟨some training_args, none⟩)
        | .ok (success, logs, log_file_path) =>
          let output_files := collect_output_files w.outputTree
          let rel_log_path := pyBasename log_file_path
          let output_files := dictInsert output_files rel_log_path log_file_path
          match (upload_results output_files ev.signed_urls w.up).1 with
          | .error e => (.error e, ⟨some training_args, some output_files⟩)
          | .ok result_urls =>
            (.ok (responseJson success result_urls logs),
             ⟨some training_args, some output_files⟩)

/-- `handler`: the `try` body's value, with any escaping exception
converted by the top-level `except` into `{"error": str(e),
"traceback": traceback.format_exc()}`. -/
def handler (ev : EventInput) (w : World) : Json :=
  match (handlerTry ev w).1 with
  | .ok j => j
  | .error e => excJson e

/- Concrete worlds used by counterexamples and witnesses. -/

/-- A download phase in which no external call raises. -/
def okDl : DlWorld := ⟨false, false, [], false, false⟩

/-- A training run in which open/spawn/wait and every log write succeed. -/
def okRun (now : Nat) (lines : List String) (code : Int) : RunWorld :=
  ⟨now, none, none, lines, none, none, none, code⟩

/-- An upload phase in which every external call succeeds. -/
def okUp : UploadWorld := ⟨fun _ => true, none⟩

/-- A world in which every external operation succeeds. -/
def okWorld (now : Nat) (lines : List String) (code : Int)
    (outputTree : List String) : World :=
  ⟨okDl, true, true, okRun now lines code, outputTree, okUp⟩

/- Spec-side definitions (for the refinement claim about the
argument-building policy): these follow the specification's wording, to be
compared with the code-derived `encodeEntry`/`configLoop`. -/

/-- Modelled from the spec's wording of the per-entry policy: boolean true
→ the single flag token; boolean false → omitted; a truthy (non-empty,
non-zero) scalar → flag plus `str(value)`; a list → the flag/`str(item)`
pair once per item (so an empty list yields nothing); any falsy scalar —
and any value that is neither boolean, scalar nor list — is omitted. -/
def specTokens (key : String) (value : Value) : List String :=
  match value with
  | .vBool true => ["--" ++ key]
  | .vBool false => []
  | .vStr s => if s = "" then [] else ["--" ++ key, s]
  | .vInt n => if n = 0 then [] else ["--" ++ key, toString n]
  | .vList xs => xs.foldr (fun item acc => ["--" ++ key, primStr item] ++ acc) []
  | .vNull => []
  | .vObj => []

/-- Modelled from the spec's wording: the per-entry tokens, concatenated
in insertion order. -/
def specArgs : List (String × Value) → List String
  | [] => []
  | (key, value) :: rest => specTokens key value ++ specArgs rest

/- Effect classifiers used by the theorems. -/

/-- Is this effect a `shutil.move` into the dataset directory? -/
def isMoveEff : DlEffect → Bool
  | .move _ _ => true
  | _ => false

/-- Is this effect an invocation of an extraction tool? -/
def isExtractEff : DlEffect → Bool
  | .runUnzip _ _ => true
  | .runTar _ _ => true
  | _ => false

/- Concrete data for counterexamples and witnesses. -/

/-- A run in which `subprocess.Popen` raises. -/
def spawnFailRun : RunWorld := ⟨7, none, some ⟨"boom", "tb"⟩, [], none, none, none, 0⟩

/-- A run whose child streams three lines and exits 0, but whose second
`log_file.write` raises (caught by the `except`). -/
def writeFailRun : RunWorld := ⟨5, none, none, ["a", "b", "c"], none, some 1, none, 0⟩

/-- A world whose only failure is the training-process spawn. -/
def spawnFailWorld : World := ⟨okDl, true, true, spawnFailRun, [], okUp⟩

/-- An event carrying only a dataset URL. -/
def plainEvent : EventInput := ⟨some ("http://x/d.zip"), [], [], []⟩

/-- A non-empty dataloader mapping. -/
def dlCfg : List (String × Value) := [("caption_strategy", Value.vStr ("filename"))]

/-- An event whose dataloader mapping is non-empty. -/
def dlEvent : EventInput := ⟨some ("http://x/d.zip"), [], dlCfg, []⟩

/-- A world in which persisting `dataloader.json` fails and everything
else succeeds. -/
def dlSaveFailWorld : World := ⟨okDl, true, false, okRun 7 [] 0, [], okUp⟩

/-- A provider-download world that delivers a file named `weird.bin`. -/
def providerDl : DlWorld := ⟨false, false, [⟨"weird.bin", true⟩], false, false⟩

/-- A world whose training child streams two lines and exits 137. -/
def exit137World : World := ⟨okDl, true, true, okRun 1700000000 ["step 1", "step 2"] 137, [], okUp⟩

/- ------------------------------------------------------------------
Helper lemmas
------------------------------------------------------------------ -/

/-- When no write fails, the monitoring loop appends to the in-memory
list and writes to the log file in lockstep: the two views have the same
length. -/
theorem monitorLoop_length_none (ls : List String) :
    (monitorLoop none ls).1.length = (monitorLoop none ls).2.length := by
  induction ls with
  | nil => rfl
  | cons l rest ih => simp [monitorLoop, ih]

/-- In general the in-memory list holds the same lines as the file, or
exactly one more (the line whose write raised after its append). -/
theorem monitorLoop_length_or (wf : Option Nat) (ls : List String) :
    (monitorLoop wf ls).1.length = (monitorLoop wf ls).2.length
    ∨ (monitorLoop wf ls).1.length = (monitorLoop wf ls).2.length + 1 := by
  induction ls generalizing wf with
  | nil =>
    refine Or.inl ?_
    cases wf with
    | none => rfl
    | some n => cases n <;> rfl
  | cons l rest ih =>
    cases wf with
    | none =>
      cases ih none with
      | inl h => exact Or.inl (by simp [monitorLoop, h])
      | inr h => exact Or.inr (by simp [monitorLoop, h])
    | some n =>
      cases n with
      | zero => exact Or.inr rfl
      | succ m =>
        cases ih (some m) with
        | inl h => exact Or.inl (by simp [monitorLoop, h])
        | inr h => exact Or.inr (by simp [monitorLoop, h])

/-- When open, spawn and wait all succeed, `run_training` returns the
success flag, captured lines and log path, with the log file closed. -/
theorem run_training_ok (args : List String) (w : RunWorld)
    (hopen : w.openExc = none) (hspawn : w.spawnExc = none)
    (hwait : w.waitExc = none) :
    run_training args w =
      ⟨.ok (w.exitCode == 0, capturedLogs w, runLogPath w),
       true, true, writtenRecords w⟩ := by
  unfold run_training capturedLogs writtenRecords
  rw [hopen, hspawn, hwait]

/-- The code's `isinstance` chain encodes each entry exactly as the
spec-worded policy does. -/
theorem encodeEntry_eq_specTokens (key : String) (value : Value) :
    encodeEntry key value = specTokens key value := by
  cases value with
  | vBool b => cases b <;> rfl
  | vStr s =>
    by_cases h : s = "" <;> simp [encodeEntry, specTokens, h]
  | vInt n =>
    by_cases h : n = 0 <;> simp [encodeEntry, specTokens, h]
  | vList xs => cases xs <;> rfl
  | vNull => rfl
  | vObj => rfl

/-- The config loop appends the spec-policy tokens of every entry, in
insertion order, to whatever arguments were already accumulated. -/
theorem configLoop_append (config : List (String × Value)) (args : List String) :
    configLoop config args = args ++ specArgs config := by
  induction config generalizing args with
  | nil => simp [configLoop, specArgs]
  | cons kv rest ih =>
    cases kv with
    | mk key value =>
      simp [configLoop, specArgs, ih, encodeEntry_eq_specTokens, List.append_assoc]

/-- Looking a key up past entries that do not hold it. -/
theorem alookup_append_of_none {β : Type} (k : String) (m l : List (String × β))
    (h : alookup k m = none) : alookup k (m ++ l) = alookup k l := by
  induction m with
  | nil => rfl
  | cons p rest ih =>
    cases p with
    | mk a b =>
      by_cases ha : a = k
      · simp [alookup, ha] at h
      · simp [alookup, ha] at h ⊢
        exact ih h

/-- Replacing the stored value of a present key in place. -/
theorem alookup_map_replace (m : List (String × String)) (k v : String)
    (h : (alookup k m).isSome) :
    alookup k (m.map (fun p => if p.1 = k then (k, v) else p)) = some v := by
  induction m with
  | nil => simp [alookup] at h
  | cons p rest ih =>
    cases p with
    | mk a b =>
      by_cases ha : a = k
      · subst ha
        simp only [List.map_cons]
        simp [alookup]
      · have h' : (alookup k rest).isSome := by simpa [alookup, ha] using h
        simp only [List.map_cons]
        rw [if_neg (show ¬((a, b).1 = k) from ha)]
        simp [alookup, ha, ih h']

/-- After `d[k] = v`, looking up `k` yields `v`. -/
theorem alookup_dictInsert (m : List (String × String)) (k v : String) :
    alookup k (dictInsert m k v) = some v := by
  unfold dictInsert
  by_cases h : (alookup k m).isSome
  · simp only [h, if_true]
    exact alookup_map_replace m k v h
  · simp only [h, if_false, Bool.false_eq_true]
    rw [alookup_append_of_none k m _ (by
      cases hm : alookup k m with
      | none => rfl
      | some x => rw [hm] at h; simp at h)]
    simp [alookup]

/-- The attempted upload keys are exactly the collected keys that also
appear in the signed-URL map, in order, regardless of which uploads
succeed (so one failed upload never aborts the remaining ones). -/
theorem uploadLoop_attempted (signed : List (String × String)) (ok : String → Bool)
    (files : List (String × String)) :
    (uploadLoop signed ok files).2
      = (files.filter (fun kv => (alookup kv.1 signed).isSome)).map (fun kv => kv.1) := by
  induction files with
  | nil => rfl
  | cons kv rest ih =>
    cases kv with
    | mk fk fp =>
      cases hl : alookup fk signed with
      | none => simp [uploadLoop, hl, ih]
      | some url =>
        by_cases hok : ok fk = true <;> simp [uploadLoop, hl, hok, ih]

/-- The published mapping holds exactly the collected keys that appear in
the signed-URL map and whose upload succeeded, each mapped to the signed
URL with its query part stripped. -/
theorem uploadLoop_results (signed : List (String × String)) (ok : String → Bool)
    (files : List (String × String)) :
    (uploadLoop signed ok files).1
      = files.filterMap (fun kv =>
          (alookup kv.1 signed).bind (fun url =>
            if ok kv.1 then some (kv.1, splitQuery url) else none)) := by
  induction files with
  | nil => rfl
  | cons kv rest ih =>
    cases kv with
    | mk fk fp =>
      cases hl : alookup fk signed with
      | none => simp [uploadLoop, hl, ih]
      | some url =>
        by_cases hok : ok fk = true <;> simp [uploadLoop, hl, hok, ih]

/-- The normal control path of the handler's `try` body: valid URL,
successful download, successful spawn and wait.  What remains is the
publishing step. -/
theorem handlerTry_normal (ev : EventInput) (w : World) (du p : String)
    (hurl : ev.dataset_url = some du) (hdu : du ≠ "")
    (hdl : (download_dataset du true w.dl).1 = some p)
    (hopen : w.run.openExc = none) (hspawn : w.run.spawnExc = none)
    (hwait : w.run.waitExc = none) :
    handlerTry ev w =
      (let training_args := prepare_training_args ev.config ev.dataloader p
       let logs := capturedLogs w.run
       let output_files := dictInsert (collect_output_files w.outputTree)
         (pyBasename (runLogPath w.run)) (runLogPath w.run)
       match (upload_results output_files ev.signed_urls w.up).1 with
       | .error e => (.error e, ⟨some training_args, some output_files⟩)
       | .ok result_urls =>
         (.ok (responseJson (w.run.exitCode == 0) result_urls logs),
          ⟨some training_args, some output_files⟩)) := by
  unfold handlerTry
  rw [hurl]
  dsimp only
  rw [if_neg hdu, hdl]
  dsimp only
  rw [run_training_ok _ _ hopen hspawn hwait]

/- ------------------------------------------------------------------
Claims
------------------------------------------------------------------ -/

/-- Claim C2: for every config mapping, `prepare_training_args` emits
tokens per entry in insertion order by the stated policy (boolean true →
single flag; boolean false → nothing; truthy scalar → flag plus
`str(value)`; non-empty list → flag/item pair per item; falsy scalar or
empty list → nothing), and the sequence always begins with the fixed
`--train_data_dir` pair followed by the fixed `--output_dir` pair. -/
theorem C2_argument_policy (config dataloader : List (String × Value))
    (dataset_path : String) :
    prepare_training_args config dataloader dataset_path
      = ["--train_data_dir", dataset_path] ++ ["--output_dir", OUTPUT_DIR]
        ++ specArgs config
        ++ (if dataloader ≠ [] then
              ["--dataloader_config", CONFIG_DIR ++ "/dataloader.json"]
            else []) := by
  unfold prepare_training_args
  dsimp only
  rw [configLoop_append]
  by_cases h : dataloader = [] <;> simp [h, List.append_assoc]

/-- Claim C3, counterexample: a caught `log_file.write` failure strikes
after `logs.append` has run for that line, so `run_training` returns
normally (spawn, wait and the exit-code inspection all succeed) with two
captured lines but only one line written — the claimed count equality
fails under the claim's own conditions. -/
theorem C3_counterexample :
    (run_training [] writeFailRun).outcome
        = .ok (true, ["a", "b"], LOG_DIR ++ "/training_5.log")
    ∧ (run_training [] writeFailRun).fileWrites = ["a\n"]
    ∧ (run_training [] writeFailRun).fileClosed = true
    ∧ writeFailRun.openExc = none
    ∧ writeFailRun.spawnExc = none
    ∧ writeFailRun.waitExc = none
    ∧ (capturedLogs writeFailRun).length
        ≠ (run_training [] writeFailRun).fileWrites.length := by
  refine ⟨rfl, rfl, rfl, rfl, rfl, rfl, ?_⟩
  decide

/-- Claim C3 (amended): when spawn and wait succeed, `run_training`
returns (never raises) `succeeded` true exactly for exit code zero, the
full captured line list and the log file path; the returned line count
equals the number of lines written to the log file provided no log-file
write fails, and in general exceeds it by at most one (the line whose
caught write failure followed its append). -/
theorem C3_run_training_contract (args : List String) (w : RunWorld)
    (hopen : w.openExc = none) (hspawn : w.spawnExc = none)
    (hwait : w.waitExc = none) :
    (run_training args w).outcome
        = .ok (w.exitCode == 0, capturedLogs w, runLogPath w)
      ∧ ((w.exitCode == 0) = true ↔ w.exitCode = 0)
      ∧ (w.writeFailsAt = none →
          (capturedLogs w).length = (run_training args w).fileWrites.length)
      ∧ ((capturedLogs w).length = (run_training args w).fileWrites.length
          ∨ (capturedLogs w).length
              = (run_training args w).fileWrites.length + 1) := by
  rw [run_training_ok args w hopen hspawn hwait]
  dsimp only
  refine ⟨rfl, by simp, ?_, ?_⟩
  · intro hw
    unfold capturedLogs writtenRecords
    rw [hw]
    exact monitorLoop_length_none _
  · exact monitorLoop_length_or _ _

/-- Claim C3, witness: a concrete run with two stream lines, no write
failure, and exit code 137. -/
theorem C3_witness :
    (run_training [] (okRun 3 ["a", "b "] 137)).outcome
        = .ok (((137 : Int) == 0), capturedLogs (okRun 3 ["a", "b "] 137),
               runLogPath (okRun 3 ["a", "b "] 137))
    ∧ (((137 : Int) == 0) = true ↔ (137 : Int) = 0)
    ∧ (capturedLogs (okRun 3 ["a", "b "] 137)).length
        = (run_training [] (okRun 3 ["a", "b "] 137)).fileWrites.length :=
  ⟨(C3_run_training_contract [] (okRun 3 ["a", "b "] 137) rfl rfl rfl).1,
   (C3_run_training_contract [] (okRun 3 ["a", "b "] 137) rfl rfl rfl).2.1,
   (C3_run_training_contract [] (okRun 3 ["a", "b "] 137) rfl rfl rfl).2.2.1 rfl⟩

/-- Claim C6: with a non-empty signed-URL mapping, `upload_results`
attempts exactly the collected keys that also appear in the mapping (a
per-file failure never aborts the remaining uploads) and publishes each
successful one at the signed URL with its query part stripped; with an
empty mapping it returns exactly the single bundle key at the workspace
root. -/
theorem C6_upload_results_contract (output_files signed_urls : List (String × String))
    (w : UploadWorld) :
    (signed_urls ≠ [] →
        upload_results output_files signed_urls w
          = (.ok (output_files.filterMap (fun kv =>
                (alookup kv.1 signed_urls).bind (fun url =>
                  if w.uploadOk kv.1 then some (kv.1, splitQuery url) else none))),
             (output_files.filter (fun kv => (alookup kv.1 signed_urls).isSome)).map
               (fun kv => kv.1)))
    ∧ (signed_urls = [] → w.zipExc = none →
        upload_results output_files signed_urls w
          = (.ok [("results.zip", WORKSPACE_DIR ++ "/results.zip")], [])) := by
  constructor
  · intro h
    unfold upload_results
    rw [if_pos h, uploadLoop_results, uploadLoop_attempted]
  · intro h hz
    subst h
    simp [upload_results, hz]

/-- Claim C6, witness: one matching key with a signed query to strip, one
key without a signed URL, and the empty-mapping bundle case. -/
theorem C6_witness :
    upload_results [("a.txt", OUTPUT_DIR ++ "/a.txt"), ("b.txt", OUTPUT_DIR ++ "/b.txt")]
        [("a.txt", "http://s/a?sig=1")] okUp
      = (.ok [("a.txt", "http://s/a")], ["a.txt"])
    ∧ upload_results [("a.txt", OUTPUT_DIR ++ "/a.txt")] [] okUp
      = (.ok [("results.zip", WORKSPACE_DIR ++ "/results.zip")], []) :=
  ⟨(C6_upload_results_contract
      [("a.txt", OUTPUT_DIR ++ "/a.txt"), ("b.txt", OUTPUT_DIR ++ "/b.txt")]
      [("a.txt", "http://s/a?sig=1")] okUp).1 (by decide),
   (C6_upload_results_contract [("a.txt", OUTPUT_DIR ++ "/a.txt")] [] okUp).2 rfl rfl⟩

/-- Claim C7, counterexample: when `subprocess.Popen` raises, the already
opened log file is never closed — `Popen` sits between `open` and the
`try`, so the `finally` that closes the file is never entered. -/
theorem C7_counterexample :
    (run_training [] spawnFailRun).fileOpened = true
    ∧ (run_training [] spawnFailRun).fileClosed = false :=
  ⟨rfl, rfl⟩

/-- Claim C7 (amended): the log file is opened on every run and is closed
exactly when both the spawn and the wait succeed (a monitoring exception
is caught and still reaches the close); a spawn failure or a wait failure
leaks the open handle. -/
theorem C7_log_file_closure (args : List String) (w : RunWorld)
    (hopen : w.openExc = none) :
    (run_training args w).fileOpened = true
    ∧ ((run_training args w).fileClosed = true
        ↔ (w.spawnExc = none ∧ w.waitExc = none)) := by
  unfold run_training
  rw [hopen]
  cases hs : w.spawnExc with
  | some e => simp
  | none =>
    cases hw : w.waitExc with
    | some e => simp
    | none => simp

/-- Claim C7, witness: a fully successful run closes the file, and the
equivalence evaluates at a concrete world. -/
theorem C7_witness :
    (run_training [] (okRun 1 ["x"] 0)).fileOpened = true
    ∧ ((run_training [] (okRun 1 ["x"] 0)).fileClosed = true
        ↔ ((okRun 1 ["x"] 0).spawnExc = none ∧ (okRun 1 ["x"] 0).waitExc = none)) :=
  C7_log_file_closure [] (okRun 1 ["x"] 0) rfl

/-- Claim C4, counterexample: a non-archive reference with extraction
requested (`extract=True`, the handler's default) is *not* moved into the
dataset directory — the function falls through and returns the file's
input-directory path, with no move effect in the trace. -/
theorem C4_counterexample :
    download_dataset ("http://x/data.bin") true okDl
      = (some (INPUT_DIR ++ "/dataset.bin"),
         [DlEffect.clearDataset,
          DlEffect.httpGet ("http://x/data.bin") (INPUT_DIR ++ "/dataset.bin")])
    ∧ ((download_dataset ("http://x/data.bin") true okDl).2.any isMoveEff) = false
    ∧ INPUT_DIR ++ "/dataset.bin" ≠ DATASET_DIR ++ "/dataset.bin" := by
  refine ⟨rfl, rfl, ?_⟩
  decide

/-- Claim C4 (amended): with extraction requested, an archive-extension
reference is extracted into the dataset directory (which is returned),
while a non-archive reference is returned at its download location
unchanged, with no move; only when extraction is suppressed is the file
moved into the dataset directory and the moved path returned. -/
theorem C4_download_extract_contract (u : String) (w : DlWorld)
    (h1 : w.httpExc = false) (h2 : w.providerExc = false)
    (h3 : w.extractExc = false) (h4 : w.moveExc = false) :
    (archiveExts.contains (urlExt u) = true →
        (download_dataset u true w).1 = some DATASET_DIR
        ∧ ((download_dataset u true w).2.any isExtractEff) = true)
    ∧ (archiveExts.contains (urlExt u) = false →
        (download_dataset u true w).1 = some (resolvedDownloadPath u w)
        ∧ ((download_dataset u true w).2.any isMoveEff) = false)
    ∧ ((download_dataset u false w).1
          = some (DATASET_DIR ++ "/" ++ pyBasename (resolvedDownloadPath u w))
        ∧ ((download_dataset u false w).2.any isMoveEff) = true) := by
  by_cases hh : isHttp u = true
  · refine ⟨?_, ?_, ?_⟩
    · intro hc
      have hcm : urlExt u ∈ archiveExts := by simpa using hc
      refine ⟨?_, ?_⟩
      · simp [download_dataset, hh, h1, h3, hcm]
      · by_cases hz : urlExt u = ".zip"
        · simp [download_dataset, hh, h1, h3, hcm, hz, isExtractEff, archiveExts]
        · have hcm2 : urlExt u = ".tar" ∨ urlExt u = ".gz" ∨ urlExt u = ".tar.gz"
              ∨ urlExt u = ".tgz" := by
            simpa [archiveExts, hz] using hcm
          simp [download_dataset, hh, h1, h3, hz, isExtractEff, archiveExts, hcm2]
    · intro hc
      have hcm : urlExt u ∉ archiveExts := by simpa using hc
      refine ⟨?_, ?_⟩
      · simp [download_dataset, resolvedDownloadPath, hh, h1, hcm]
      · simp [download_dataset, hh, h1, hcm, isMoveEff]
    · refine ⟨?_, ?_⟩
      · simp [download_dataset, resolvedDownloadPath, hh, h1, h4]
      · simp [download_dataset, hh, h1, h4, isMoveEff]
  · have hh' : isHttp u = false := by
      cases hval : isHttp u
      · rfl
      · exact absurd hval hh
    refine ⟨?_, ?_, ?_⟩
    · intro hc
      have hcm : urlExt u ∈ archiveExts := by simpa using hc
      refine ⟨?_, ?_⟩
      · simp [download_dataset, hh', h2, h3, hcm]
      · by_cases hz : urlExt u = ".zip"
        · simp [download_dataset, hh', h2, h3, hcm, hz, isExtractEff, archiveExts]
        · have hcm2 : urlExt u = ".tar" ∨ urlExt u = ".gz" ∨ urlExt u = ".tar.gz"
              ∨ urlExt u = ".tgz" := by
            simpa [archiveExts, hz] using hcm
          simp [download_dataset, hh', h2, h3, hz, isExtractEff, archiveExts, hcm2]
    · intro hc
      have hcm : urlExt u ∉ archiveExts := by simpa using hc
      refine ⟨?_, ?_⟩
      · simp [download_dataset, resolvedDownloadPath, hh', h2, hcm]
      · simp [download_dataset, hh', h2, hcm, isMoveEff]
    · refine ⟨?_, ?_⟩
      · simp [download_dataset, resolvedDownloadPath, hh', h2, h4]
      · simp [download_dataset, hh', h2, h4, isMoveEff]

/-- Claim C4, witness: a `.zip` reference is extracted; a `.bin` reference
with extraction requested stays put; a `.bin` reference with extraction
suppressed is moved. -/
theorem C4_witness :
    ((download_dataset ("http://x/a.zip") true okDl).1 = some DATASET_DIR
      ∧ ((download_dataset ("http://x/a.zip") true okDl).2.any isExtractEff) = true)
    ∧ ((download_dataset ("http://x/b.bin") true okDl).1
          = some (resolvedDownloadPath ("http://x/b.bin") okDl)
      ∧ ((download_dataset ("http://x/b.bin") true okDl).2.any isMoveEff) = false)
    ∧ ((download_dataset ("http://x/b.bin") false okDl).1
          = some (DATASET_DIR ++ "/" ++ pyBasename (resolvedDownloadPath ("http://x/b.bin") okDl))
      ∧ ((download_dataset ("http://x/b.bin") false okDl).2.any isMoveEff) = true) :=
  ⟨(C4_download_extract_contract ("http://x/a.zip") okDl rfl rfl rfl rfl).1 (by decide),
   (C4_download_extract_contract ("http://x/b.bin") okDl rfl rfl rfl rfl).2.1 (by decide),
   (C4_download_extract_contract ("http://x/b.bin") okDl rfl rfl rfl rfl).2.2⟩

/-- Claim C9, counterexample: for a provider (non-HTTP) reference, the
local download path handed to the extraction tool is the delivered file's
own name (`weird.bin`), not the name derived from the reference string —
while the extraction decision still follows the reference's `.zip`
extension. -/
theorem C9_counterexample :
    download_dataset ("s3://b/data.zip?sig=2") true providerDl
      = (some DATASET_DIR,
         [DlEffect.clearDataset, DlEffect.providerFetch ("s3://b/data.zip?sig=2"),
          DlEffect.runUnzip (INPUT_DIR ++ "/weird.bin") DATASET_DIR])
    ∧ resolvedDownloadPath ("s3://b/data.zip?sig=2") providerDl
        ≠ dsDownloadPath ("s3://b/data.zip?sig=2") := by
  refine ⟨rfl, ?_⟩
  decide

/-- Claim C9 (amended): the archive/extraction decision is computed solely
from the query-stripped reference string's extension; the local download
path is reference-derived for HTTP(S) references, but for provider
references it is the first delivered non-side-channel file's own name. -/
theorem C9_extension_decision (u : String) (extract : Bool) (w : DlWorld)
    (hok : if isHttp u then w.httpExc = false else w.providerExc = false) :
    (((download_dataset u extract w).2.any isExtractEff)
        = (extract && archiveExts.contains (urlExt u)))
    ∧ (isHttp u = true → resolvedDownloadPath u w = dsDownloadPath u)
    ∧ (∀ name, isHttp u = false → firstDataFile w.inputListing = some name →
          resolvedDownloadPath u w = INPUT_DIR ++ "/" ++ name) := by
  by_cases hh : isHttp u = true
  · have h1 : w.httpExc = false := by simpa [hh] using hok
    refine ⟨?_, fun _ => by simp [resolvedDownloadPath, hh], ?_⟩
    · by_cases hcm : urlExt u ∈ archiveExts
      · cases extract with
        | true =>
          by_cases hz : urlExt u = ".zip"
          · by_cases he : w.extractExc = true <;>
              simp [download_dataset, hh, h1, hcm, hz, he, isExtractEff, archiveExts]
          · have hcm2 : urlExt u = ".tar" ∨ urlExt u = ".gz" ∨ urlExt u = ".tar.gz"
                ∨ urlExt u = ".tgz" := by
              simpa [archiveExts, hz] using hcm
            by_cases he : w.extractExc = true <;>
              simp [download_dataset, hh, h1, hz, he, isExtractEff, archiveExts, hcm2]
        | false =>
          by_cases hm : w.moveExc = true <;>
            simp [download_dataset, hh, h1, hcm, hm, isExtractEff]
      · cases extract with
        | true =>
          simp [download_dataset, hh, h1, hcm, isExtractEff]
        | false =>
          by_cases hm : w.moveExc = true <;>
            simp [download_dataset, hh, h1, hcm, hm, isExtractEff]
    · intro name hfalse
      rw [hh] at hfalse
      exact absurd hfalse (by decide)
  · have hh' : isHttp u = false := by
      cases hval : isHttp u
      · rfl
      · exact absurd hval hh
    have h2 : w.providerExc = false := by simpa [hh'] using hok
    refine ⟨?_, fun htrue => absurd htrue hh, ?_⟩
    · by_cases hcm : urlExt u ∈ archiveExts
      · cases extract with
        | true =>
          by_cases hz : urlExt u = ".zip"
          · by_cases he : w.extractExc = true <;>
              simp [download_dataset, hh', h2, hcm, hz, he, isExtractEff, archiveExts]
          · have hcm2 : urlExt u = ".tar" ∨ urlExt u = ".gz" ∨ urlExt u = ".tar.gz"
                ∨ urlExt u = ".tgz" := by
              simpa [archiveExts, hz] using hcm
            by_cases he : w.extractExc = true <;>
              simp [download_dataset, hh', h2, hz, he, isExtractEff, archiveExts, hcm2]
        | false =>
          by_cases hm : w.moveExc = true <;>
            simp [download_dataset, hh', h2, hcm, hm, isExtractEff]
      · cases extract with
        | true =>
          simp [download_dataset, hh', h2, hcm, isExtractEff]
        | false =>
          by_cases hm : w.moveExc = true <;>
            simp [download_dataset, hh', h2, hcm, hm, isExtractEff]
    · intro name _ hfind
      simp [resolvedDownloadPath, hh', hfind]

/-- Claim C9, witness: the amended contract evaluated at a provider
reference delivering a differently named file, and at an HTTP
reference. -/
theorem C9_witness :
    ((((download_dataset ("s3://b/data.zip?sig=2") true providerDl).2.any isExtractEff)
        = (true && archiveExts.contains (urlExt ("s3://b/data.zip?sig=2"))))
      ∧ (∀ name, isHttp ("s3://b/data.zip?sig=2") = false →
            firstDataFile providerDl.inputListing = some name →
            resolvedDownloadPath ("s3://b/data.zip?sig=2") providerDl
              = INPUT_DIR ++ "/" ++ name))
    ∧ resolvedDownloadPath ("http://x/a.zip") okDl = dsDownloadPath ("http://x/a.zip") :=
  ⟨⟨(C9_extension_decision ("s3://b/data.zip?sig=2") true providerDl (by decide)).1,
    (C9_extension_decision ("s3://b/data.zip?sig=2") true providerDl (by decide)).2.2⟩,
   (C9_extension_decision ("http://x/a.zip") true okDl (by decide)).2.1 rfl⟩

/-- Claim C1, counterexample: when a stage inside the `try` raises (here a
spawn failure), the returned object is `{"error": str(e), "traceback":
...}` — it carries no `status` key, contrary to the claimed
`status=error`. -/
theorem C1_counterexample :
    handler plainEvent spawnFailWorld
      = Json.obj [("error", Json.s ("boom")), ("traceback", Json.s ("tb"))]
    ∧ jsonKeys (handler plainEvent spawnFailWorld) = ["error", "traceback"]
    ∧ ¬ (("status" : String) ∈ jsonKeys (handler plainEvent spawnFailWorld)) := by
  refine ⟨rfl, rfl, ?_⟩
  decide

/-- Claim C1 (amended): the handler always returns a result object; an
event without a (truthy) dataset URL yields exactly the no-URL error
object with nothing else attempted, and any exception escaping a later
stage is caught at the top level and converted into an object carrying the
exception's message under `error` and the formatted trace under
`traceback` (and no `status` field). -/
theorem C1_handler_error_conversion (ev : EventInput) (w : World) :
    ((ev.dataset_url = none ∨ ev.dataset_url = some "") →
        handler ev w = noUrlJson
        ∧ (handlerTry ev w).2.trainingArgs = none
        ∧ (handlerTry ev w).2.filesToPublish = none)
    ∧ (∀ e, (handlerTry ev w).1 = .error e →
        handler ev w = Json.obj [("error", Json.s e.msg), ("traceback", Json.s e.tb)]) := by
  constructor
  · intro h
    have ht : handlerTry ev w = (.ok noUrlJson, ⟨none, none⟩) := by
      cases h with
      | inl h => unfold handlerTry; rw [h]
      | inr h => unfold handlerTry; rw [h]; dsimp only; rw [if_pos rfl]
    refine ⟨?_, ?_, ?_⟩ <;> simp [handler, ht]
  · intro e he
    simp [handler, he, excJson]

/-- Claim C1, witness: the no-URL case and a concrete escaping
exception. -/
theorem C1_witness :
    (handler ⟨none, [], [], []⟩ (okWorld 7 [] 0 []) = noUrlJson
      ∧ (handlerTry ⟨none, [], [], []⟩ (okWorld 7 [] 0 [])).2.trainingArgs = none
      ∧ (handlerTry ⟨none, [], [], []⟩ (okWorld 7 [] 0 [])).2.filesToPublish = none)
    ∧ handler plainEvent spawnFailWorld
        = Json.obj [("error", Json.s ("boom")), ("traceback", Json.s ("tb"))] :=
  ⟨(C1_handler_error_conversion ⟨none, [], [], []⟩ (okWorld 7 [] 0 [])).1 (Or.inl rfl),
   (C1_handler_error_conversion plainEvent spawnFailWorld).2 ⟨"boom", "tb"⟩ rfl⟩

/-- Claim C5, counterexample: with exit code 137 and no signed URLs, the
log file *is* added (under its base name) to the mapping handed to
publishing, and `log_summary` holds the last captured lines — but the
result's `files` mapping holds only the bundle key, not the log file
entry, contrary to the claim. -/
theorem C5_counterexample :
    (handlerTry plainEvent exit137World).2.filesToPublish
        = some [("training_1700000000.log", LOG_DIR ++ "/training_1700000000.log")]
    ∧ handler plainEvent exit137World
        = Json.obj [("status", Json.s ("error")),
            ("output", Json.obj
              [("files", Json.obj [("results.zip", Json.s ("/workspace/results.zip"))]),
               ("log_summary", Json.s ("step 1\nstep 2"))])]
    ∧ ((jsonGet (handler plainEvent exit137World) ("output")).bind
          (fun o => jsonGet o ("files")))
        = some (Json.obj [("results.zip", Json.s ("/workspace/results.zip"))])
    ∧ ¬ (("training_1700000000.log" : String)
          ∈ jsonKeys (Json.obj [("results.zip", Json.s ("/workspace/results.zip"))])) := by
  refine ⟨rfl, rfl, rfl, ?_⟩
  decide

/-- Claim C5 (amended): on every run that reaches training, the log file
is added under its base name to the collected mapping handed to
publishing, even on a non-zero exit; with no signed URLs the published
`files` mapping is exactly the bundle key, and the response's summary is
built from the captured lines. -/
theorem C5_log_always_collected (ev : EventInput) (w : World) (du p : String)
    (hurl : ev.dataset_url = some du) (hdu : du ≠ "")
    (hdl : (download_dataset du true w.dl).1 = some p)
    (hopen : w.run.openExc = none) (hspawn : w.run.spawnExc = none)
    (hwait : w.run.waitExc = none) :
    ∃ fs, (handlerTry ev w).2.filesToPublish = some fs
      ∧ alookup (pyBasename (runLogPath w.run)) fs = some (runLogPath w.run)
      ∧ (ev.signed_urls = [] → w.up.zipExc = none →
          handler ev w
            = responseJson (w.run.exitCode == 0)
                [("results.zip", WORKSPACE_DIR ++ "/results.zip")]
                (capturedLogs w.run)) := by
  have ht := handlerTry_normal ev w du p hurl hdu hdl hopen hspawn hwait
  refine ⟨dictInsert (collect_output_files w.outputTree)
            (pyBasename (runLogPath w.run)) (runLogPath w.run), ?_, ?_, ?_⟩
  · rw [ht]
    dsimp only
    cases hup : (upload_results
        (dictInsert (collect_output_files w.outputTree)
          (pyBasename (runLogPath w.run)) (runLogPath w.run))
        ev.signed_urls w.up).1 <;> simp [hup]
  · exact alookup_dictInsert _ _ _
  · intro hsig hz
    unfold handler
    rw [ht]
    dsimp only
    rw [hsig]
    simp [upload_results, hz]

/-- Claim C5, witness: the amended statement evaluated at the concrete
exit-137 world. -/
theorem C5_witness :
    ∃ fs, (handlerTry plainEvent exit137World).2.filesToPublish = some fs
      ∧ alookup (pyBasename (runLogPath exit137World.run)) fs
          = some (runLogPath exit137World.run)
      ∧ (plainEvent.signed_urls = [] → exit137World.up.zipExc = none →
          handler plainEvent exit137World
            = responseJson (exit137World.run.exitCode == 0)
                [("results.zip", WORKSPACE_DIR ++ "/results.zip")]
                (capturedLogs exit137World.run)) :=
  C5_log_always_collected plainEvent exit137World ("http://x/d.zip") DATASET_DIR
    rfl (by decide) rfl rfl rfl rfl

/-- Claim C8, counterexample: persisting `dataloader.json` fails in this
run (the save returns `None`), yet the `--dataloader_config` pair still
appears in the argument vector handed to training, because
`prepare_training_args` tests the mapping's truthiness, not the
persistence outcome. -/
theorem C8_counterexample :
    dlSaveFailWorld.saveDataloaderOk = false
    ∧ save_config_file dlCfg ("dataloader.json") dlSaveFailWorld.saveDataloaderOk = none
    ∧ (handlerTry dlEvent dlSaveFailWorld).2.trainingArgs
        = some ["--train_data_dir", DATASET_DIR, "--output_dir", OUTPUT_DIR,
                "--dataloader_config", CONFIG_DIR ++ "/dataloader.json"] :=
  ⟨rfl, rfl, rfl⟩

/-- Claim C8 (amended): the argument vector the handler passes to training
never depends on whether the dataloader artifact was persisted; the
`--dataloader_config` pair is appended exactly when the dataloader mapping
itself is non-empty. -/
theorem C8_dataloader_flag (ev : EventInput) (w : World) (b : Bool) :
    (handlerTry ev w).2.trainingArgs
        = (handlerTry ev { w with saveDataloaderOk := b }).2.trainingArgs
    ∧ (∀ (config dl : List (String × Value)) (p : String), dl ≠ [] →
        prepare_training_args config dl p
          = prepare_training_args config [] p
            ++ ["--dataloader_config", CONFIG_DIR ++ "/dataloader.json"])
    ∧ (∀ (config : List (String × Value)) (p : String),
        prepare_training_args config [] p
          = ["--train_data_dir", p, "--output_dir", OUTPUT_DIR] ++ specArgs config) := by
  refine ⟨?_, ?_, ?_⟩
  · have : handlerTry ev w = handlerTry ev { w with saveDataloaderOk := b } := by
      unfold handlerTry
      cases ev.dataset_url with
      | none => rfl
      | some du => dsimp only
    rw [this]
  · intro config dl p hdl
    unfold prepare_training_args
    dsimp only
    rw [if_pos hdl, if_neg (by simp : ¬(([] : List (String × Value)) ≠ []))]
  · intro config p
    rw [C2_argument_policy config [] p]
    simp

/-- Claim C8, witness: the amended statement evaluated at the failing-save
event and a concrete non-empty dataloader mapping. -/
theorem C8_witness :
    ((handlerTry dlEvent dlSaveFailWorld).2.trainingArgs
        = (handlerTry dlEvent { dlSaveFailWorld with saveDataloaderOk := false }).2.trainingArgs)
    ∧ prepare_training_args [] dlCfg ("/d")
        = prepare_training_args [] [] ("/d")
          ++ ["--dataloader_config", CONFIG_DIR ++ "/dataloader.json"]
    ∧ prepare_training_args [] [] ("/d")
        = ["--train_data_dir", "/d", "--output_dir", OUTPUT_DIR] ++ specArgs [] :=
  ⟨(C8_dataloader_flag dlEvent dlSaveFailWorld false).1,
   (C8_dataloader_flag dlEvent dlSaveFailWorld false).2.1 [] dlCfg ("/d") (by decide),
   (C8_dataloader_flag dlEvent dlSaveFailWorld false).2.2 [] ("/d")⟩

/-- Claim C10: an event with a dataset URL but no config is not rejected:
the handler proceeds with the empty mapping, the invocation is exactly the
two fixed pairs with no dataloader pair, and the run produces a normal
status response. -/
theorem C10_empty_config_proceeds (du p : String) (w : World)
    (hdu : du ≠ "") (hdl : (download_dataset du true w.dl).1 = some p)
    (hopen : w.run.openExc = none) (hspawn : w.run.spawnExc = none)
    (hwait : w.run.waitExc = none) (hzip : w.up.zipExc = none) :
    (handlerTry ⟨some du, [], [], []⟩ w).2.trainingArgs
        = some ["--train_data_dir", p, "--output_dir", OUTPUT_DIR]
    ∧ jsonGet (handler ⟨some du, [], [], []⟩ w) ("status")
        = some (Json.s (if w.run.exitCode == 0 then "success" else "error")) := by
  have ht := handlerTry_normal ⟨some du, [], [], []⟩ w du p rfl hdu hdl hopen hspawn hwait
  constructor
  · rw [ht]
    dsimp only
    rw [C2_argument_policy]
    cases hup : (upload_results
        (dictInsert (collect_output_files w.outputTree)
          (pyBasename (runLogPath w.run)) (runLogPath w.run)) [] w.up).1 <;>
      simp [hup, specArgs]
  · unfold handler
    rw [ht]
    dsimp only
    simp [upload_results, hzip, responseJson, jsonGet, alookup]

/-- Claim C10, witness: a concrete all-success world with no config
field. -/
theorem C10_witness :
    (handlerTry ⟨some ("http://x/d.zip"), [], [], []⟩ (okWorld 7 ["l1"] 0 [])).2.trainingArgs
        = some ["--train_data_dir", DATASET_DIR, "--output_dir", OUTPUT_DIR]
    ∧ jsonGet (handler ⟨some ("http://x/d.zip"), [], [], []⟩ (okWorld 7 ["l1"] 0 [])) ("status")
        = some (Json.s (if (okWorld 7 ["l1"] 0 []).run.exitCode == 0 then "success" else "error")) :=
  C10_empty_config_proceeds ("http://x/d.zip") DATASET_DIR (okWorld 7 ["l1"] 0 [])
    (by decide) rfl rfl rfl rfl rfl
